import Mathlib

/-!
Verification of the reservation-agent backend (src/db.py, src/tools.py).

The model is a shallow embedding of the repository's mock database branch
(`use_mock = True`, the branch taken when no Supabase credentials are present)
and of the tool layer in `tools.py`.  Python state mutation is modelled by
explicit state passing, Python exceptions by `Option` / `Except`, and the
current wall-clock time (`datetime.now()`) by an explicit parameter: the
several `datetime.now()` calls within one operation are modelled as the same
instant, and the process-local timezone is taken to be UTC, so that the
timestamp of a naive datetime is its civil-seconds value.

Modelling notes:
  * `datetime.fromisoformat` is embedded for the grammar
    `YYYY-MM-DD[<sep>HH[:MM[:SS]]][(+|-)HH:MM]` with full field validation
    (calendar-valid day of month, hour <= 23, minute/second <= 59, offset
    strictly below 24 hours).  Fractional seconds and seconds in the offset
    are not modelled; no theorem or witness below touches such inputs.
  * `str.isdigit` is modelled as ASCII digithood (`Char.isDigit`); no input
    used below contains non-ASCII digit characters.
  * Fields that are written but never read by any claimed behaviour
    (`created_at` timestamps, the `summaries` list, the `tables` list) are
    omitted from the state.
  * Python truthiness on optional tool arguments (`if name:`,
    `if new_start_time:` ...) is modelled by `optTruthy` / `natTruthy`:
    an absent argument and an empty-string / zero argument are equally falsy.
-/

/-- A point in civil time, mirroring the fields of Python's `datetime`
(microseconds are not modelled). -/
structure DT where
  year : Nat
  month : Nat
  day : Nat
  hour : Nat
  minute : Nat
  second : Nat
deriving DecidableEq

/-- Python `datetime` comparison: lexicographic on the fields. -/
def dtLt (a b : DT) : Bool :=
  if a.year ≠ b.year then decide (a.year < b.year)
  else if a.month ≠ b.month then decide (a.month < b.month)
  else if a.day ≠ b.day then decide (a.day < b.day)
  else if a.hour ≠ b.hour then decide (a.hour < b.hour)
  else if a.minute ≠ b.minute then decide (a.minute < b.minute)
  else decide (a.second < b.second)

/-- Python `datetime` less-or-equal. -/
def dtLe (a b : DT) : Bool :=
  dtLt a b || a == b

/-- Leap-year rule of the proleptic Gregorian calendar (as used by
Python's `datetime.date`). -/
def isLeap (y : Nat) : Bool :=
  y % 4 == 0 && (y % 100 != 0 || y % 400 == 0)

/-- Number of days in a month, as validated by Python's `date` constructor. -/
def daysInMonth (y m : Nat) : Nat :=
  if m = 2 then (if isLeap y then 29 else 28)
  else if m = 4 ∨ m = 6 ∨ m = 9 ∨ m = 11 then 30
  else 31

/-- Rata-die day number of a civil date (days since 0000-03-01), the standard
civil-from-days bijection also underlying Python's `date.toordinal`. -/
def daysFromCivil (y m d : Nat) : Nat :=
  let y' := if m ≤ 2 then y - 1 else y
  let era := y' / 400
  let yoe := y' % 400
  let mp := if m ≤ 2 then m + 9 else m - 3
  let doy := (153 * mp + 2) / 5 + d - 1
  let doe := yoe * 365 + yoe / 4 - yoe / 100 + doy
  era * 146097 + doe

/-- Inverse of `daysFromCivil`: the civil date of a rata-die day number. -/
def civilFromDays (z : Nat) : Nat × Nat × Nat :=
  let era := z / 146097
  let doe := z % 146097
  let yoe := (doe - doe / 1460 + doe / 36524 - doe / 146096) / 365
  let y := yoe + era * 400
  let doy := doe - (365 * yoe + yoe / 4 - yoe / 100)
  let mp := (5 * doy + 2) / 153
  let d := doy - (153 * mp + 2) / 5 + 1
  let m := if mp < 10 then mp + 3 else mp - 9
  if m ≤ 2 then (y + 1, m, d) else (y, m, d)

/-- Seconds since the Unix epoch of a naive `DT` read as UTC (the model's
process-local timezone), i.e. Python's `dt.timestamp()` for naive `dt`. -/
def epochSecs (dt : DT) : Int :=
  ((daysFromCivil dt.year dt.month dt.day : Int) - 719468) * 86400
    + dt.hour * 3600 + dt.minute * 60 + dt.second

/-- Python `dt.timestamp()` for a possibly offset-aware datetime: the stated
civil time shifted by the UTC offset (in minutes) when one is attached. -/
def tsOf (dt : DT) (off : Option Int) : Int :=
  epochSecs dt - 60 * off.getD 0

/-- Reads exactly `n` ASCII digits, accumulating their value. -/
def readDigits : Nat → Nat → List Char → Option (Nat × List Char)
  | 0, acc, cs => some (acc, cs)
  | n + 1, acc, c :: cs =>
      if c.isDigit then readDigits n (acc * 10 + (c.toNat - 48)) cs else none
  | _ + 1, _, [] => none

/-- Parses the trailing UTC-offset part `(+|-)HH:MM` of an ISO string (empty
input means a naive datetime); the offset is returned in signed minutes and,
as in Python's `timezone`, must be strictly below 24 hours. -/
def parseOffPart (cs : List Char) : Option (Option Int) :=
  match cs with
  | [] => some none
  | '+' :: rest =>
      match readDigits 2 0 rest with
      | some (oh, ':' :: r2) =>
          match readDigits 2 0 r2 with
          | some (om, []) => if oh * 60 + om < 1440 then some (some (oh * 60 + om)) else none
          | _ => none
      | _ => none
  | '-' :: rest =>
      match readDigits 2 0 rest with
      | some (oh, ':' :: r2) =>
          match readDigits 2 0 r2 with
          | some (om, []) => if oh * 60 + om < 1440 then some (some (-(oh * 60 + om : Int))) else none
          | _ => none
      | _ => none
  | _ => none

/-- Validates the time fields and assembles the parse result. -/
def finishParse (y mo d h mi s : Nat) (tz : Option Int) : Option (DT × Option Int) :=
  if h ≤ 23 ∧ mi ≤ 59 ∧ s ≤ 59 then some (⟨y, mo, d, h, mi, s⟩, tz) else none

/-- Parses the time-of-day part `HH[:MM[:SS]]` followed by an optional offset. -/
def parseTimePart (y mo d : Nat) (cs : List Char) : Option (DT × Option Int) :=
  match readDigits 2 0 cs with
  | some (h, ':' :: r2) =>
      (match readDigits 2 0 r2 with
       | some (mi, ':' :: r4) =>
           (match readDigits 2 0 r4 with
            | some (s, r5) => (parseOffPart r5).bind (finishParse y mo d h mi s)
            | none => none)
       | some (mi, r3) => (parseOffPart r3).bind (finishParse y mo d h mi 0)
       | none => none)
  | some (h, rest) => (parseOffPart rest).bind (finishParse y mo d h 0 0)
  | none => none

/-- Python `datetime.fromisoformat` (see the modelling notes in the header):
`YYYY-MM-DD`, optionally a single separator character and `HH[:MM[:SS]]`,
optionally a `(+|-)HH:MM` offset; every field range-validated.  `none` models
the `ValueError` raised on invalid input. -/
def parseISO (str : String) : Option (DT × Option Int) :=
  match readDigits 4 0 str.toList with
  | some (y, '-' :: r1) =>
      (match readDigits 2 0 r1 with
       | some (mo, '-' :: r2) =>
           (match readDigits 2 0 r2 with
            | some (d, rest) =>
                if 1 ≤ y ∧ 1 ≤ mo ∧ mo ≤ 12 ∧ 1 ≤ d ∧ d ≤ daysInMonth y mo then
                  match rest with
                  | [] => some (⟨y, mo, d, 0, 0, 0⟩, none)
                  | _sep :: timeCs => parseTimePart y mo d timeCs
                else none
            | none => none)
       | _ => none)
  | _ => none

/-- Python `start_time.replace('Z', '+00:00')`: every `'Z'` character is
replaced by the substring `+00:00`. -/
def replaceZ (str : String) : String :=
  ⟨str.toList.flatMap (fun c => if c = 'Z' then ['+', '0', '0', ':', '0', '0'] else [c])⟩

/-- Zero-padded two-digit rendering, as in `strftime` `%H` / `%M` / `%S`. -/
def pad2 (n : Nat) : String :=
  if n < 10 then "0" ++ toString n else toString n

/-- Zero-padded four-digit rendering, as in `strftime` `%Y`. -/
def pad4 (n : Nat) : String :=
  if n < 10 then "000" ++ toString n
  else if n < 100 then "00" ++ toString n
  else if n < 1000 then "0" ++ toString n
  else toString n

/-- Python `slot_time.strftime("%Y-%m-%dT%H:%M:%S")`. -/
def formatDT (dt : DT) : String :=
  pad4 dt.year ++ "-" ++ pad2 dt.month ++ "-" ++ pad2 dt.day ++ "T"
    ++ pad2 dt.hour ++ ":" ++ pad2 dt.minute ++ ":" ++ pad2 dt.second

/-- Python truthiness of an optional string argument: `None` and `""` are
falsy, everything else is truthy. -/
def optTruthy : Option String → Bool
  | none => false
  | some s => !s.isEmpty

/-- Python truthiness of an optional integer argument: `None` and `0` are
falsy. -/
def natTruthy : Option Nat → Bool
  | none => false
  | some n => n != 0

/-- Guest record of `db.py` (mock branch); the never-read `created_at` field
is omitted. -/
structure User where
  id : String
  contact_number : String
  name : String
deriving DecidableEq

/-- Appointment record of `db.py` (mock branch); the never-read `created_at`
field is omitted. -/
structure Appt where
  id : String
  user_id : String
  start_time : String
  end_time : String
  status : String
  num_people : Nat
  details : String
deriving DecidableEq

/-- The mock database state (`Database.users` / `Database.appointments`). -/
structure DB where
  users : List User
  appointments : List Appt
deriving DecidableEq

/-- Source constant `Database.opening_hour` (10 AM). -/
def openingHour : Nat := 10

/-- Source constant `Database.closing_hour` (10 PM). -/
def closingHour : Nat := 22

/-- The loop body of `Database.get_or_create_user` (mock branch): scan the
user list for the first record with the given contact number, overwrite its
name in place when the `name` argument is truthy, and return it; append a
fresh record otherwise.  `len` is the length of the full original list, used
to mint the id of a freshly created user. -/
def gocUsers : List User → Nat → String → Option String → User × List User
  | [], len, c, n =>
      let u : User := ⟨"user_" ++ toString (len + 1), c,
        if optTruthy n then n.getD "" else "Unknown"⟩
      (u, [u])
  | u :: rest, len, c, n =>
      if u.contact_number == c then
        let u' := if optTruthy n then { u with name := n.getD "" } else u
        (u', u' :: rest)
      else
        ((gocUsers rest len c n).1, u :: (gocUsers rest len c n).2)

/-- Source `Database.get_or_create_user` (mock branch). -/
def get_or_create_user (st : DB) (contact_number : String) (name : Option String) :
    User × DB :=
  let (u, us) := gocUsers st.users st.users.length contact_number name
  (u, { st with users := us })

/-- Source `Database.create_appointment` (mock branch).  The initial
`fromisoformat` attempt in the source has its `ValueError` swallowed and its
result discarded, so it has no observable effect and is not modelled. -/
def create_appointment (st : DB) (user_id start_time : String) (num_people : Nat)
    (details : String) : Appt × DB :=
  let appt : Appt :=
    ⟨"appt_" ++ toString (st.appointments.length + 1), user_id, start_time, "TBD",
      "booked", num_people, "Guests: " ++ toString num_people ++ ". " ++ details⟩
  (appt, { st with appointments := st.appointments ++ [appt] })

/-- The loop of `Database.cancel_appointment` (mock branch): set the status of
the first appointment with the given id to `"cancelled"` and return `true`;
return `false` when no appointment has that id.  Note the source returns
`true` even when the matched appointment was already cancelled. -/
def cancelList : List Appt → String → Bool × List Appt
  | [], _ => (false, [])
  | a :: rest, i =>
      if a.id == i then (true, { a with status := "cancelled" } :: rest)
      else
        ((cancelList rest i).1, a :: (cancelList rest i).2)

/-- Source `Database.cancel_appointment` (mock branch). -/
def cancel_appointment (st : DB) (appointment_id : String) : Bool × DB :=
  let (b, l) := cancelList st.appointments appointment_id
  (b, { st with appointments := l })

/-- Source `Database.get_user_appointments` (mock branch): the guest's
appointments whose status is not `"cancelled"`. -/
def get_user_appointments (st : DB) (user_id : String) : List Appt :=
  st.appointments.filter (fun a => a.user_id == user_id && a.status != "cancelled")

/-- Source `Database.check_availability` (mock branch).  `now` is the instant
returned by `datetime.now()` inside the call.  The checks run in source
order: parse (a `ValueError` is caught and yields `False`), then the
120-second past-time buffer, then business hours, and only then the scan for
a `booked` appointment whose stored start-time string is exactly equal to the
query string.  The `num_people` argument is accepted and ignored, as in the
source. -/
def check_availability (st : DB) (now : DT) (start_time : String) (num_people : Nat) :
    Bool :=
  match parseISO (replaceZ start_time) with
  | none => false
  | some (dt, off) =>
      if tsOf dt off < epochSecs now - 120 then false
      else if dt.hour < openingHour ∨ closingHour ≤ dt.hour then false
      else
        !(st.appointments.any (fun a =>
            a.start_time == start_time && a.status == "booked"))

/-- Source candidate hours of `Database.get_next_available_slot`. -/
def availableHours : List Nat := [10, 14, 17, 18, 19]

/-- The candidate slots scanned by `Database.get_next_available_slot`: for
each of the next 7 calendar days starting at the reference date, each
candidate hour at minute and second zero, in scan order. -/
def slotCandidates (ref : DT) : List DT :=
  (List.range 7).flatMap (fun day_offset =>
    let cd := civilFromDays (daysFromCivil ref.year ref.month ref.day + day_offset)
    availableHours.map (fun h => ⟨cd.1, cd.2.1, cd.2.2, h, 0, 0⟩))

/-- The scan loop of `Database.get_next_available_slot`: the first candidate
that is strictly after the reference time and whose formatted string passes
`check_availability` (which is called with the default `num_people = 1`). -/
def nextSlotScan (st : DB) (now ref : DT) : Option String :=
  ((slotCandidates ref).find? (fun c =>
      !(dtLe c ref) && check_availability st now (formatDT c) 1)).map formatDT

/-- Python `max(dt, now)` on two naive datetimes: the second argument wins
only when it is strictly greater. -/
def pymax (dt now : DT) : DT :=
  if dtLt dt now then now else dt

/-- Source `Database.get_next_available_slot`.  Only `ValueError` from the
parse is caught (falling back to `now`); when `from_time` parses to an
offset-aware datetime, `max(dt, now)` compares an aware datetime with the
naive `now` and raises an uncaught `TypeError`, modelled as `Except.error`. -/
def get_next_available_slot (st : DB) (now : DT) (from_time : String) :
    Except Unit (Option String) :=
  match parseISO (replaceZ from_time) with
  | none => .ok (nextSlotScan st now now)
  | some (dt, none) => .ok (nextSlotScan st now (pymax dt now))
  | some (_, some _) => .error ()

/-- Session state of `ReservationTools` (`tools.py`); the room handle, end
event and preference list play no role in the claimed behaviour. -/
structure ToolState where
  user_id : Option String
  user_context : Option User
  session_bookings : List Appt
deriving DecidableEq

/-- The phone normalization shared verbatim by `identify_user` and the
implicit-identification path of `book_appointment`: keep only digit
characters, require at least 10 of them, and canonicalize to the last 10. -/
def normalizePhone (contact_number : String) : Option String :=
  let digits := contact_number.toList.filter Char.isDigit
  if digits.length < 10 then none
  else some ⟨digits.drop (digits.length - 10)⟩

/-- Result of the `identify_user` tool, abstracting its two return strings. -/
inductive IdentifyOutcome
  | invalidPhone
  | identified (user : User)
deriving DecidableEq

/-- Source `ReservationTools.identify_user`: normalize the contact number,
fail with the invalid-phone error when fewer than 10 digits remain, otherwise
resolve the guest and record it in the session. -/
def identify_user (ts : ToolState) (st : DB) (contact_number : String)
    (name : Option String) : IdentifyOutcome × ToolState × DB :=
  match normalizePhone contact_number with
  | none => (.invalidPhone, ts, st)
  | some num =>
      let (u, st') := get_or_create_user st num name
      (.identified u, { ts with user_id := some u.id, user_context := some u }, st')

/-- Result of the `book_appointment` tool, abstracting its return strings and
the `reason` field of its published failure events (`invalid_phone`,
`auth_required`, `past_date`, `unavailable`). -/
inductive BookOutcome
  | invalidPhone
  | authRequired
  | pastDate (next_slot : Option String)
  | slotUnavailable (next_slot : Option String)
  | success (appt : Appt)
deriving DecidableEq

/-- The booking core of `ReservationTools.book_appointment`, entered once a
guest id is in the session: check availability; on failure classify past-date
(by re-parsing, a bare `except` mapping parse failure to `False`) and fetch a
suggested next slot (whose uncaught `TypeError` on offset-aware input
propagates); on success create the appointment and append it to the session
booking list. -/
def bookCore (ts : ToolState) (st : DB) (now : DT) (uid start_time : String)
    (num_people : Nat) (details : String) :
    Except Unit (BookOutcome × ToolState × DB) :=
  if check_availability st now start_time num_people then
    let (appt, st') := create_appointment st uid start_time num_people details
    .ok (.success appt,
      { ts with session_bookings := ts.session_bookings ++ [appt] }, st')
  else
    let is_past :=
      match parseISO (replaceZ start_time) with
      | some (dt, off) => decide (tsOf dt off < epochSecs now)
      | none => false
    match get_next_available_slot st now start_time with
    | .error e => .error e
    | .ok next_slot =>
        .ok (if is_past then .pastDate next_slot else .slotUnavailable next_slot,
          ts, st)

/-- Source `ReservationTools.book_appointment`: with no identified guest, a
truthy contact number triggers implicit identification (the same
normalization as `identify_user`), a falsy one fails with the
authentication-required error; then the booking core runs. -/
def book_appointment (ts : ToolState) (st : DB) (now : DT) (start_time : String)
    (num_people : Nat) (name : Option String) (contact_number : Option String)
    (details : String) : Except Unit (BookOutcome × ToolState × DB) :=
  match ts.user_id with
  | some uid => bookCore ts st now uid start_time num_people details
  | none =>
      if optTruthy contact_number then
        match normalizePhone (contact_number.getD "") with
        | none => .ok (.invalidPhone, ts, st)
        | some num =>
            let (u, st1) := get_or_create_user st num name
            bookCore { ts with user_id := some u.id, user_context := some u } st1 now
              u.id start_time num_people details
      else .ok (.authRequired, ts, st)

/-- Result of the `modify_appointment` tool, abstracting its return strings
and the `reason` field of its published failure events (`not_found`,
`past_date`, `new_slot_unavailable`). -/
inductive ModifyOutcome
  | nothingSpecified
  | identityRequired
  | notFound
  | pastDate (next_slot : Option String)
  | slotUnavailable (next_slot : Option String)
  | success (appt : Appt)
deriving DecidableEq

/-- Source `ReservationTools.modify_appointment`: reject when nothing truthy
is supplied; require an identified guest; look the id up among the guest's
active appointments (`NotFound` otherwise); compute effective time / party
size / details with truthiness fallbacks to the current record; when a new
start time is supplied and unavailable, classify past-date vs slot-conflict
and fetch a suggested next slot (whose uncaught `TypeError` on offset-aware
input propagates), leaving the state untouched; otherwise cancel the old
record and create a new one with the effective values.  The session state is
not modified by this tool. -/
def modify_appointment (ts : ToolState) (st : DB) (now : DT)
    (appointment_id : String) (new_start_time : Option String)
    (new_num_people : Option Nat) (new_details : Option String) :
    Except Unit (ModifyOutcome × DB) :=
  if !optTruthy new_start_time && !natTruthy new_num_people
      && !optTruthy new_details then
    .ok (.nothingSpecified, st)
  else
    match ts.user_id with
    | none => .ok (.identityRequired, st)
    | some uid =>
        match (get_user_appointments st uid).find? (fun a => a.id == appointment_id) with
        | none => .ok (.notFound, st)
        | some original =>
            let final_time :=
              if optTruthy new_start_time then new_start_time.getD ""
              else original.start_time
            let final_people :=
              if natTruthy new_num_people then new_num_people.getD 0
              else original.num_people
            let final_details :=
              if optTruthy new_details then new_details.getD "" else original.details
            if optTruthy new_start_time
                && !check_availability st now final_time final_people then
              let is_past :=
                match parseISO (replaceZ final_time) with
                | some (dt, off) => decide (tsOf dt off < epochSecs now)
                | none => false
              match get_next_available_slot st now final_time with
              | .error e => .error e
              | .ok next_slot =>
                  .ok (if is_past then .pastDate next_slot
                    else .slotUnavailable next_slot, st)
            else
              let st1 := (cancel_appointment st appointment_id).2
              let (appt, st2) :=
                create_appointment st1 uid final_time final_people final_details
              .ok (.success appt, st2)

/-- Elimination form of a successful availability check: the string parses,
is within the 120-second past buffer and business hours, and no booked
appointment is stored under exactly that string. -/
lemma check_availability_true_elim (st : DB) (now : DT) (s : String) (np : Nat)
    (h : check_availability st now s np = true) :
    ∃ dt off, parseISO (replaceZ s) = some (dt, off)
      ∧ ¬(tsOf dt off < epochSecs now - 120)
      ∧ ¬(dt.hour < openingHour ∨ closingHour ≤ dt.hour)
      ∧ st.appointments.any (fun a => a.start_time == s && a.status == "booked")
          = false := by
  unfold check_availability at h
  cases hp : parseISO (replaceZ s) with
  | none => rw [hp] at h; exact absurd h (by simp)
  | some p =>
      obtain ⟨dt, off⟩ := p
      rw [hp] at h
      dsimp only at h
      by_cases h1 : tsOf dt off < epochSecs now - 120
      · rw [if_pos h1] at h; exact absurd h (by simp)
      · rw [if_neg h1] at h
        by_cases h2 : dt.hour < openingHour ∨ closingHour ≤ dt.hour
        · rw [if_pos h2] at h; exact absurd h (by simp)
        · rw [if_neg h2] at h
          exact ⟨dt, off, rfl, h1, h2, by simpa using h⟩

/-- Introduction form of a successful availability check. -/
lemma check_availability_true_intro (st : DB) (now : DT) (s : String) (np : Nat)
    (dt : DT) (off : Option Int)
    (hp : parseISO (replaceZ s) = some (dt, off))
    (h1 : ¬(tsOf dt off < epochSecs now - 120))
    (h2 : ¬(dt.hour < openingHour ∨ closingHour ≤ dt.hour))
    (h3 : st.appointments.any (fun a => a.start_time == s && a.status == "booked")
          = false) :
    check_availability st now s np = true := by
  unfold check_availability
  rw [hp]
  dsimp only
  rw [if_neg h1, if_neg h2, h3]
  rfl

/-- C2: `check_availability` fails closed.  It is a total Boolean function
(the `ValueError` of an unparsable string is caught in the source and
modelled as the `none` branch), and it returns `false` whenever the string
does not parse, or the start time is strictly more than 120 seconds before
`now`, or the stated hour falls outside `[10, 22)` — for every booking state
`st`.  The definition of `check_availability` performs these checks in
source order: parse, past-time buffer, business hours. -/
theorem c2_check_fails_closed (st : DB) (now : DT) (s : String) (np : Nat)
    (h : parseISO (replaceZ s) = none
      ∨ ∃ dt off, parseISO (replaceZ s) = some (dt, off)
        ∧ (tsOf dt off < epochSecs now - 120
           ∨ dt.hour < openingHour ∨ closingHour ≤ dt.hour)) :
    check_availability st now s np = false := by
  unfold check_availability
  rcases h with h | ⟨dt, off, hp, hcond⟩
  · rw [h]
  · rw [hp]
    dsimp only
    rcases hcond with h1 | h2
    · rw [if_pos h1]
    · by_cases h1 : tsOf dt off < epochSecs now - 120
      · rw [if_pos h1]
      · rw [if_neg h1, if_pos h2]

/-- Witness for C2: a well-formed start time at 9 AM (outside business
hours) is reported unavailable even against an empty booking state. -/
theorem c2_witness :
    check_availability ⟨[], []⟩ ⟨2026, 1, 1, 12, 0, 0⟩ "2026-01-03T09:00:00" 1
      = false :=
  c2_check_fails_closed ⟨[], []⟩ ⟨2026, 1, 1, 12, 0, 0⟩ "2026-01-03T09:00:00" 1
    (Or.inr ⟨⟨2026, 1, 3, 9, 0, 0⟩, none, by decide, Or.inr (by decide)⟩)

/-- Cancelling an id that no appointment carries leaves the list unchanged
and reports failure. -/
lemma cancelList_not_mem (l : List Appt) (i : String)
    (h : ∀ a ∈ l, a.id ≠ i) : cancelList l i = (false, l) := by
  induction l with
  | nil => rfl
  | cons a rest ih =>
      have ha : (a.id == i) = false := by
        simpa using h a (List.mem_cons_self a rest)
      rw [cancelList, if_neg (by simp [ha]),
        ih (fun x hx => h x (List.mem_cons_of_mem a hx))]

/-- Re-running the cancel loop on its own output changes nothing: the first
matching appointment is already cancelled, and re-setting its status to
`"cancelled"` is the identity. -/
lemma cancelList_twice (l : List Appt) (i : String) :
    cancelList (cancelList l i).2 i = cancelList l i := by
  induction l with
  | nil => rfl
  | cons a rest ih =>
      obtain ⟨aid, auid, ast, aet, asts, anp, adet⟩ := a
      by_cases h : (aid == i) = true
      · simp only [cancelList, h, if_true]
      · simp only [cancelList, h, if_false, Bool.false_eq_true]
        rw [ih]

/-- C7 (amended): `cancel_appointment` is idempotent in effect — cancelling
an unknown id returns `false` without state change, and a second cancellation
of the same id is a complete no-op, returning the same result (hence `true`,
not `false`, when the id exists) and leaving the state unchanged. -/
theorem c7_cancel_idempotent (st : DB) (i : String) :
    ((∀ a ∈ st.appointments, a.id ≠ i) → cancel_appointment st i = (false, st))
    ∧ cancel_appointment (cancel_appointment st i).2 i = cancel_appointment st i := by
  constructor
  · intro h
    unfold cancel_appointment
    rw [cancelList_not_mem st.appointments i h]
  · unfold cancel_appointment
    rw [cancelList_twice st.appointments i]

/-- Witness for C7: cancelling an id absent from an empty ledger returns
`false` and changes nothing. -/
theorem c7_witness :
    cancel_appointment ⟨[], []⟩ "appt_9" = (false, ⟨[], []⟩) :=
  (c7_cancel_idempotent ⟨[], []⟩ "appt_9").1 (by simp)

/-- Counterexample for C7 as stated: the claim says cancelling a second time
returns `false`, but the source's loop matches on the id alone and returns
`True` even when the appointment is already cancelled — here the second
cancellation of `appt_1` returns `true`. -/
theorem c7_counterexample :
    (cancel_appointment
      (cancel_appointment
        ⟨[], [⟨"appt_1", "user_1", "2030-01-01T10:00:00", "TBD", "booked", 2,
          "Guests: 2. "⟩]⟩ "appt_1").2 "appt_1").1 = true := by decide

/-- C10: the slot-conflict check compares stored start-time strings with the
query string by exact string equality, not by the instant they denote.  Even
when the state contains a booked appointment stored under `s1`, and `s1` and
the distinct string `s2` parse to the very same naive datetime `dt`, the
availability check for `s2` still succeeds as long as no appointment is
stored under the exact string `s2` and `s2` itself passes validation — so
the one-booked-appointment-per-slot invariant holds only up to string
representation. -/
theorem c10_conflict_is_string_keyed (st : DB) (now : DT) (s1 s2 : String)
    (dt : DT) (hne : s1 ≠ s2)
    (hp1 : parseISO (replaceZ s1) = some (dt, none))
    (hp2 : parseISO (replaceZ s2) = some (dt, none))
    (hbooked : ∃ a ∈ st.appointments, a.start_time = s1 ∧ a.status = "booked")
    (hnos2 : ∀ a ∈ st.appointments, a.start_time ≠ s2)
    (h1 : ¬(tsOf dt none < epochSecs now - 120))
    (h2 : ¬(dt.hour < openingHour ∨ closingHour ≤ dt.hour)) :
    check_availability st now s2 1 = true := by
  refine check_availability_true_intro st now s2 1 dt none hp2 h1 h2 ?_
  rw [List.any_eq_false]
  intro a ha
  simp [hnos2 a ha]

/-- Witness for C10: `"2026-10-27T19:00"` and `"2026-10-27T19:00:00"` denote
the same instant; with the slot booked under the former, the latter is still
reported available. -/
theorem c10_witness :
    check_availability
      ⟨[], [⟨"appt_1", "user_1", "2026-10-27T19:00", "TBD", "booked", 2,
        "Guests: 2. "⟩]⟩ ⟨2026, 10, 27, 12, 0, 0⟩ "2026-10-27T19:00:00" 1 = true :=
  c10_conflict_is_string_keyed _ ⟨2026, 10, 27, 12, 0, 0⟩
    "2026-10-27T19:00" "2026-10-27T19:00:00" ⟨2026, 10, 27, 19, 0, 0⟩
    (by decide) (by decide) (by decide)
    ⟨⟨"appt_1", "user_1", "2026-10-27T19:00", "TBD", "booked", 2, "Guests: 2. "⟩,
      by simp, rfl, rfl⟩
    (by intro a ha; simp at ha; simp [ha]) (by decide) (by decide)

/-- Cancelling the id of a freshly appended appointment, when no earlier
appointment carries that id, cancels exactly the appended record. -/
lemma cancelList_append_fresh (l : List Appt) (x : Appt) (i : String)
    (h : ∀ a ∈ l, a.id ≠ i) (hx : x.id = i) :
    cancelList (l ++ [x]) i = (true, l ++ [{ x with status := "cancelled" }]) := by
  induction l with
  | nil => simp [cancelList, hx]
  | cons a rest ih =>
      have ha : (a.id == i) = false := by
        simpa using h a (List.mem_cons_self a rest)
      rw [List.cons_append, cancelList, if_neg (by simp [ha]),
        ih (fun y hy => h y (List.mem_cons_of_mem a hy))]
      simp

/-- C1: availability round-trip through booking and cancellation.  Creating
an appointment at start time `s` (status `booked`) makes
`check_availability s` return `false` — unconditionally, for any state and
clock.  If moreover `s` was available beforehand (it parses, is within
business hours, is at most 120 seconds in the past, and no other booked
appointment is stored at `s`) and no pre-existing appointment collides with
the freshly minted id, then cancelling that same appointment succeeds and
makes `check_availability s` return `true` again. -/
theorem c1_book_cancel_roundtrip (st : DB) (now : DT) (uid s : String) (np : Nat)
    (details : String) :
    check_availability (create_appointment st uid s np details).2 now s 1 = false
    ∧ (check_availability st now s 1 = true →
       (∀ a ∈ st.appointments, a.id ≠ (create_appointment st uid s np details).1.id) →
       (cancel_appointment (create_appointment st uid s np details).2
           (create_appointment st uid s np details).1.id).1 = true
       ∧ check_availability
           (cancel_appointment (create_appointment st uid s np details).2
             (create_appointment st uid s np details).1.id).2 now s 1 = true) := by
  constructor
  · unfold check_availability create_appointment
    cases hp : parseISO (replaceZ s) with
    | none => rfl
    | some p =>
        obtain ⟨dt, off⟩ := p
        dsimp only
        by_cases h1 : tsOf dt off < epochSecs now - 120
        · rw [if_pos h1]
        · rw [if_neg h1]
          by_cases h2 : dt.hour < openingHour ∨ closingHour ≤ dt.hour
          · rw [if_pos h2]
          · rw [if_neg h2]
            simp [List.any_append]
  · intro hav hfresh
    obtain ⟨dt, off, hp, h1, h2, h3⟩ := check_availability_true_elim st now s 1 hav
    have hcl := cancelList_append_fresh st.appointments
      (create_appointment st uid s np details).1
      (create_appointment st uid s np details).1.id hfresh rfl
    constructor
    · show (cancelList
        (st.appointments ++ [(create_appointment st uid s np details).1])
        (create_appointment st uid s np details).1.id).1 = true
      rw [hcl]
    · refine check_availability_true_intro _ now s 1 dt off hp h1 h2 ?_
      show ((cancelList
          (st.appointments ++ [(create_appointment st uid s np details).1])
          (create_appointment st uid s np details).1.id).2.any
        fun a => a.start_time == s && a.status == "booked") = false
      rw [hcl, List.any_append]
      rw [List.any_eq_false] at h3
      have hsing : (([{ (create_appointment st uid s np details).1 with
          status := "cancelled" }].any
            fun a => a.start_time == s && a.status == "booked") = false) := by
        simp
      rw [hsing, List.any_eq_false.mpr h3]
      rfl

/-- Witness for C1: on an empty ledger, booking 6 PM tomorrow flips its
availability to `false`, and cancelling the created appointment flips it
back to `true`. -/
theorem c1_witness :
    check_availability
        (create_appointment ⟨[], []⟩ "user_1" "2026-01-02T18:00:00" 2 "").2
        ⟨2026, 1, 1, 12, 0, 0⟩ "2026-01-02T18:00:00" 1 = false
    ∧ (cancel_appointment
          (create_appointment ⟨[], []⟩ "user_1" "2026-01-02T18:00:00" 2 "").2
          (create_appointment ⟨[], []⟩ "user_1" "2026-01-02T18:00:00" 2 "").1.id).1
        = true
    ∧ check_availability
        (cancel_appointment
          (create_appointment ⟨[], []⟩ "user_1" "2026-01-02T18:00:00" 2 "").2
          (create_appointment ⟨[], []⟩ "user_1" "2026-01-02T18:00:00" 2 "").1.id).2
        ⟨2026, 1, 1, 12, 0, 0⟩ "2026-01-02T18:00:00" 1 = true := by
  have h := c1_book_cancel_roundtrip ⟨[], []⟩ ⟨2026, 1, 1, 12, 0, 0⟩ "user_1"
    "2026-01-02T18:00:00" 2 ""
  have h2 := h.2 (by decide) (by decide)
  exact ⟨h.1, h2.1, h2.2⟩


/-- Head step of `find?` over users when the head matches. -/
lemma find?_user_pos (u : User) (rest : List User) (c : String)
    (hu : (u.contact_number == c) = true) :
    (u :: rest).find? (fun x => x.contact_number == c) = some u := by
  simp [List.find?_cons, hu]

/-- Head step of `find?` over users when the head does not match. -/
lemma find?_user_neg (u : User) (rest : List User) (c : String)
    (hu : (u.contact_number == c) = false) :
    (u :: rest).find? (fun x => x.contact_number == c)
      = rest.find? (fun x => x.contact_number == c) := by
  simp [List.find?_cons, hu]

/-- Head step of `filter` over users when the head matches. -/
lemma filter_user_pos (u : User) (rest : List User) (c : String)
    (hu : (u.contact_number == c) = true) :
    (u :: rest).filter (fun x => x.contact_number == c)
      = u :: rest.filter (fun x => x.contact_number == c) := by
  simp [List.filter_cons, hu]

/-- Head step of `filter` over users when the head does not match. -/
lemma filter_user_neg (u : User) (rest : List User) (c : String)
    (hu : (u.contact_number == c) = false) :
    (u :: rest).filter (fun x => x.contact_number == c)
      = rest.filter (fun x => x.contact_number == c) := by
  simp [List.filter_cons, hu]

/-- When a user with the given contact number exists, the resolve loop
updates that first match in place: the returned record is the first match
(name overwritten when the argument is truthy), the list length is
unchanged, the returned record is again the first match of the new list, and
the number of records with that contact number is unchanged. -/
lemma gocUsers_found (us : List User) (len : Nat) (c : String) (n : Option String)
    (r : User) (h : us.find? (fun u => u.contact_number == c) = some r) :
    (gocUsers us len c n).1 = (if optTruthy n then { r with name := n.getD "" } else r)
    ∧ (gocUsers us len c n).2.length = us.length
    ∧ (gocUsers us len c n).2.find? (fun u => u.contact_number == c)
        = some (gocUsers us len c n).1
    ∧ ((gocUsers us len c n).2.filter (fun u => u.contact_number == c)).length
        = (us.filter (fun u => u.contact_number == c)).length := by
  induction us with
  | nil => simp at h
  | cons u rest ih =>
      by_cases hu : (u.contact_number == c) = true
      · rw [find?_user_pos u rest c hu] at h
        injection h with h
        subst h
        have e : gocUsers (u :: rest) len c n
            = ((if optTruthy n then { u with name := n.getD "" } else u),
               (if optTruthy n then { u with name := n.getD "" } else u) :: rest) := by
          rw [gocUsers, if_pos hu]
        have hX : ((if optTruthy n then { u with name := n.getD "" } else u).contact_number
            == c) = true := by
          by_cases hn : optTruthy n = true <;> simp only [hn, if_true, if_false] <;>
            simpa using hu
        rw [e]
        refine ⟨rfl, by simp, ?_, ?_⟩
        · rw [find?_user_pos _ rest c hX]
        · rw [filter_user_pos _ rest c hX, filter_user_pos u rest c hu]
          simp
      · have hu' : (u.contact_number == c) = false := by simpa using hu
        rw [find?_user_neg u rest c hu'] at h
        have e : gocUsers (u :: rest) len c n
            = ((gocUsers rest len c n).1, u :: (gocUsers rest len c n).2) := by
          rw [gocUsers, if_neg (by simp [hu'])]
        obtain ⟨i1, i2, i3, i4⟩ := ih h
        rw [e]
        refine ⟨i1, by simp [i2], ?_, ?_⟩
        · rw [find?_user_neg u _ c hu', i3]
        · rw [filter_user_neg u _ c hu', filter_user_neg u rest c hu', i4]

/-- When no user with the given contact number exists, the resolve loop
falls through and appends a freshly minted record, with the supplied name or
the placeholder `"Unknown"`. -/
lemma gocUsers_not_found (us : List User) (len : Nat) (c : String) (n : Option String)
    (h : us.find? (fun u => u.contact_number == c) = none) :
    gocUsers us len c n
      = (⟨"user_" ++ toString (len + 1), c, if optTruthy n then n.getD "" else "Unknown"⟩,
         us ++ [⟨"user_" ++ toString (len + 1), c,
           if optTruthy n then n.getD "" else "Unknown"⟩]) := by
  induction us with
  | nil => rw [gocUsers]; rfl
  | cons u rest ih =>
      by_cases hu : (u.contact_number == c) = true
      · rw [find?_user_pos u rest c hu] at h
        exact absurd h (by simp)
      · have hu' : (u.contact_number == c) = false := by simpa using hu
        rw [find?_user_neg u rest c hu'] at h
        rw [gocUsers, if_neg (by simp [hu']), ih h]
        rfl

/-- Scanning an appended list starts over the prefix; when the whole prefix
fails the predicate the scan continues into the suffix. -/
lemma find?_append_of_none {α : Type} (l1 l2 : List α) (p : α → Bool)
    (h : l1.find? p = none) : (l1 ++ l2).find? p = l2.find? p := by
  induction l1 with
  | nil => rfl
  | cons a t ih =>
      cases hpa : p a with
      | true => simp [List.find?_cons, hpa] at h
      | false =>
          simp only [List.find?_cons, hpa] at h
          rw [List.cons_append, List.find?_cons, hpa]
          exact ih h

/-- C4: guest uniqueness and last-write-wins naming.  Starting from a state
with at most one user per the canonical number `c`, after one resolve call
exactly one record with number `c` is stored, and a second resolve call adds
no record (the user-list length is unchanged and the count for `c` stays 1);
the returned record is the stored first match; when the second call supplies
a (truthy) name the returned/stored name is that name, and when it supplies
none the name from the first call's record is preserved. -/
theorem c4_resolve_unique_and_names (st : DB) (c : String) (n1 n2 : Option String)
    (huniq : (st.users.filter (fun u => u.contact_number == c)).length ≤ 1) :
    ((get_or_create_user st c n1).2.users.filter
        (fun u => u.contact_number == c)).length = 1
    ∧ (get_or_create_user (get_or_create_user st c n1).2 c n2).2.users.length
        = (get_or_create_user st c n1).2.users.length
    ∧ ((get_or_create_user (get_or_create_user st c n1).2 c n2).2.users.filter
        (fun u => u.contact_number == c)).length = 1
    ∧ (get_or_create_user (get_or_create_user st c n1).2 c n2).2.users.find?
        (fun u => u.contact_number == c)
        = some (get_or_create_user (get_or_create_user st c n1).2 c n2).1
    ∧ (optTruthy n2 = true →
        (get_or_create_user (get_or_create_user st c n1).2 c n2).1.name = n2.getD "")
    ∧ (optTruthy n2 = false →
        (get_or_create_user (get_or_create_user st c n1).2 c n2).1.name
          = (get_or_create_user st c n1).1.name) := by
  have hfind1 : (get_or_create_user st c n1).2.users.find?
        (fun u => u.contact_number == c) = some (get_or_create_user st c n1).1
      ∧ ((get_or_create_user st c n1).2.users.filter
        (fun u => u.contact_number == c)).length = 1 := by
    cases hf : st.users.find? (fun u => u.contact_number == c) with
    | some r =>
        obtain ⟨g1, g2, g3, g4⟩ := gocUsers_found st.users st.users.length c n1 r hf
        have hpr : (r.contact_number == c) = true := by
          have h0 := List.find?_some hf
          simpa using h0
        have hmem : r ∈ st.users.filter (fun u => u.contact_number == c) :=
          List.mem_filter.mpr ⟨List.mem_of_find?_eq_some hf, hpr⟩
        have hge : 1 ≤ (st.users.filter (fun u => u.contact_number == c)).length :=
          List.length_pos.mpr (List.ne_nil_of_mem hmem)
        refine ⟨g3, ?_⟩
        show ((gocUsers st.users st.users.length c n1).2.filter
          (fun u => u.contact_number == c)).length = 1
        rw [g4]; omega
    | none =>
        have e := gocUsers_not_found st.users st.users.length c n1 hf
        constructor
        · show (gocUsers st.users st.users.length c n1).2.find?
            (fun u => u.contact_number == c)
            = some (gocUsers st.users st.users.length c n1).1
          rw [e]
          dsimp only
          rw [find?_append_of_none _ _ _ hf, find?_user_pos _ [] c (by simp)]
        · show ((gocUsers st.users st.users.length c n1).2.filter
            (fun u => u.contact_number == c)).length = 1
          rw [e]
          dsimp only
          rw [List.filter_append]
          have hnil : st.users.filter (fun u => u.contact_number == c) = [] := by
            rw [List.filter_eq_nil_iff]
            intro a ha
            exact List.find?_eq_none.mp hf a ha
          rw [hnil, filter_user_pos _ [] c (by simp)]
          simp
  obtain ⟨s1, s2, s3, s4⟩ := gocUsers_found (get_or_create_user st c n1).2.users
    (get_or_create_user st c n1).2.users.length c n2 _ hfind1.1
  refine ⟨hfind1.2, s2, ?_, s3, ?_, ?_⟩
  · show ((gocUsers (get_or_create_user st c n1).2.users
      (get_or_create_user st c n1).2.users.length c n2).2.filter
        (fun u => u.contact_number == c)).length = 1
    rw [s4]
    exact hfind1.2
  · intro hn
    show (gocUsers (get_or_create_user st c n1).2.users
      (get_or_create_user st c n1).2.users.length c n2).1.name = n2.getD ""
    rw [s1, if_pos hn]
  · intro hn
    show (gocUsers (get_or_create_user st c n1).2.users
      (get_or_create_user st c n1).2.users.length c n2).1.name
        = (get_or_create_user st c n1).1.name
    rw [s1, if_neg (by simp [hn])]

/-- Witness for C4: identifying as "Ana" and then resolving the same number
again without a name keeps one user record and preserves the name. -/
theorem c4_witness :
    (get_or_create_user (get_or_create_user ⟨[], []⟩ "5551234567" (some "Ana")).2
        "5551234567" none).2.users.length
      = (get_or_create_user ⟨[], []⟩ "5551234567" (some "Ana")).2.users.length
    ∧ (get_or_create_user (get_or_create_user ⟨[], []⟩ "5551234567" (some "Ana")).2
        "5551234567" none).1.name
      = (get_or_create_user ⟨[], []⟩ "5551234567" (some "Ana")).1.name := by
  have h := c4_resolve_unique_and_names ⟨[], []⟩ "5551234567" (some "Ana") none (by simp)
  exact ⟨h.2.1, h.2.2.2.2.2 rfl⟩

/-- The booking core (entered only after identification) can never produce
the invalid-phone outcome: that outcome arises only in the implicit
identification prologue. -/
lemma bookCore_ne_invalidPhone (ts : ToolState) (st : DB) (now : DT)
    (uid stt : String) (np : Nat) (d : String) (ts' : ToolState) (st' : DB) :
    bookCore ts st now uid stt np d ≠ .ok (.invalidPhone, ts', st') := by
  unfold bookCore
  by_cases hav : check_availability st now stt np = true
  · rw [if_pos hav]
    intro hc
    simp at hc
  · rw [if_neg hav]
    cases hnx : get_next_available_slot st now stt with
    | error e => simp
    | ok ns =>
        by_cases hp : (match parseISO (replaceZ stt) with
          | some (dt, off) => decide (tsOf dt off < epochSecs now)
          | none => false) = true
        · simp [hp]
        · simp [hp]

/-- C8: phone normalization.  `identify_user` fails with the invalid-phone
error exactly when fewer than 10 digit characters remain after stripping;
a successful canonicalization is exactly the last 10 digits of the digit
sequence; normalization is idempotent; it depends only on the last 10
characters of the digit sequence; and the implicit identification path of
`book_appointment` (which runs the same digit-stripping code) rejects with
the invalid-phone outcome exactly when fewer than 10 digits remain. -/
theorem c8_phone_normalization (s1 s2 : String) (ts : ToolState) (st : DB)
    (name : Option String) :
    ((identify_user ts st s1 name).1 = .invalidPhone
        ↔ (s1.toList.filter Char.isDigit).length < 10)
    ∧ (∀ c0, normalizePhone s1 = some c0 →
        c0.toList = (s1.toList.filter Char.isDigit).drop
          ((s1.toList.filter Char.isDigit).length - 10))
    ∧ (∀ c0, normalizePhone s1 = some c0 → normalizePhone c0 = some c0)
    ∧ (10 ≤ (s1.toList.filter Char.isDigit).length →
       10 ≤ (s2.toList.filter Char.isDigit).length →
       (s1.toList.filter Char.isDigit).drop ((s1.toList.filter Char.isDigit).length - 10)
         = (s2.toList.filter Char.isDigit).drop
             ((s2.toList.filter Char.isDigit).length - 10) →
       normalizePhone s1 = normalizePhone s2)
    ∧ (∀ now stt np d, ts.user_id = none → s1 ≠ "" →
        (((s1.toList.filter Char.isDigit).length < 10 →
          book_appointment ts st now stt np name (some s1) d = .ok (.invalidPhone, ts, st))
         ∧ (10 ≤ (s1.toList.filter Char.isDigit).length →
            ∀ ts' st', book_appointment ts st now stt np name (some s1) d
              ≠ .ok (.invalidPhone, ts', st')))) := by
  have hnone : ∀ s : String,
      (normalizePhone s = none ↔ (s.toList.filter Char.isDigit).length < 10) := by
    intro s
    unfold normalizePhone
    dsimp only
    by_cases h0 : (s.toList.filter Char.isDigit).length < 10
    · simp [h0]
    · simp [h0]
  have hsome : ∀ s : String, ¬ (s.toList.filter Char.isDigit).length < 10 →
      normalizePhone s = some ⟨(s.toList.filter Char.isDigit).drop
        ((s.toList.filter Char.isDigit).length - 10)⟩ := by
    intro s h0
    unfold normalizePhone
    dsimp only
    rw [if_neg h0]
  refine ⟨?_, ?_, ?_, ?_, ?_⟩
  · cases hn : normalizePhone s1 with
    | none =>
        unfold identify_user
        rw [hn]
        simpa using (hnone s1).mp hn
    | some num =>
        unfold identify_user
        rw [hn]
        dsimp only
        constructor
        · intro hI
          exact absurd hI (by simp)
        · intro hlt
          exact absurd hn (by rw [(hnone s1).mpr hlt]; simp)
  · intro c0 h
    by_cases hlen : (s1.toList.filter Char.isDigit).length < 10
    · rw [(hnone s1).mpr hlen] at h
      simp at h
    · rw [hsome s1 hlen] at h
      injection h with h
      subst h
      rfl
  · intro c0 h
    by_cases hlen : (s1.toList.filter Char.isDigit).length < 10
    · rw [(hnone s1).mpr hlen] at h
      simp at h
    · rw [hsome s1 hlen] at h
      injection h with h
      subst h
      have hall : ∀ ch ∈ (s1.toList.filter Char.isDigit).drop
          ((s1.toList.filter Char.isDigit).length - 10), ch.isDigit = true :=
        fun ch hch => (List.mem_filter.mp (List.drop_subset _ _ hch)).2
      have hfix : ((⟨(s1.toList.filter Char.isDigit).drop
          ((s1.toList.filter Char.isDigit).length - 10)⟩ : String).toList.filter
            Char.isDigit)
          = (s1.toList.filter Char.isDigit).drop
              ((s1.toList.filter Char.isDigit).length - 10) :=
        List.filter_eq_self.mpr hall
      have hlen10 : ((s1.toList.filter Char.isDigit).drop
          ((s1.toList.filter Char.isDigit).length - 10)).length = 10 := by
        rw [List.length_drop]
        omega
      rw [hsome _ (by rw [hfix, hlen10]; omega)]
      rw [hfix, hlen10]
      simp
  · intro h1 h2 heq
    unfold normalizePhone
    dsimp only
    rw [if_neg (by omega), if_neg (by omega), heq]
  · intro now stt np d hid hs
    have htr : optTruthy (some s1) = true := by
      have hf : s1.isEmpty = false :=
        Bool.eq_false_iff.mpr (fun hh => hs ((String.isEmpty_iff s1).mp hh))
      simp [optTruthy, hf]
    have hgetd : ((some s1 : Option String).getD "") = s1 := rfl
    constructor
    · intro hlen
      unfold book_appointment
      rw [hid]
      dsimp only
      rw [if_pos htr, hgetd, (hnone s1).mpr hlen]
    · intro hlen ts' st'
      unfold book_appointment
      rw [hid]
      dsimp only
      rw [if_pos htr, hgetd, hsome s1 (by omega)]
      exact bookCore_ne_invalidPhone _ _ _ _ _ _ _ _ _

/-- Witness for C8: a formatted number with separators and country code
canonicalizes to its last 10 digits, idempotently, and a short number is
rejected by `identify_user`. -/
theorem c8_witness :
    normalizePhone "+1 (555) 123-4567" = normalizePhone "555.123.4567"
    ∧ (identify_user ⟨none, none, []⟩ ⟨[], []⟩ "12345" none).1
        = IdentifyOutcome.invalidPhone
    ∧ normalizePhone "5551234567" = some "5551234567" := by
  refine ⟨?_, ?_, ?_⟩
  · exact (c8_phone_normalization "+1 (555) 123-4567" "555.123.4567" ⟨none, none, []⟩
      ⟨[], []⟩ none).2.2.2.1 (by decide) (by decide) (by decide)
  · exact (c8_phone_normalization "12345" "" ⟨none, none, []⟩ ⟨[], []⟩ none).1.mpr
      (by decide)
  · exact (c8_phone_normalization "5551234567" "" ⟨none, none, []⟩ ⟨[], []⟩
      none).2.2.1 "5551234567" (by decide)

/-- A present non-empty optional string argument is truthy. -/
lemma optTruthy_some_ne (s : String) (h : s ≠ "") : optTruthy (some s) = true := by
  have hf : s.isEmpty = false :=
    Bool.eq_false_iff.mpr (fun hh => h ((String.isEmpty_iff s).mp hh))
  simp [optTruthy, hf]

/-- C6: modifying with only new details supplied.  For an identified guest
whose active appointments contain the target id, calling
`modify_appointment` with only `new_details` (no new start time, no new
party size) succeeds and yields an appointment with the original start time
and party size.  No availability hypothesis is needed: the theorem holds for
every state and clock, which shows the path performs no availability
check. -/
theorem c6_modify_details_preserves (ts : ToolState) (st : DB) (now : DT)
    (uid aid d : String) (original : Appt)
    (hid : ts.user_id = some uid)
    (hfind : (get_user_appointments st uid).find? (fun a => a.id == aid)
      = some original)
    (hd : d ≠ "") :
    ∃ appt st2,
      modify_appointment ts st now aid none none (some d) = .ok (.success appt, st2)
      ∧ appt.start_time = original.start_time
      ∧ appt.num_people = original.num_people := by
  have htr : optTruthy (some d) = true := optTruthy_some_ne d hd
  have e1 : optTruthy (none : Option String) = false := rfl
  have e2 : natTruthy (none : Option Nat) = false := rfl
  unfold modify_appointment
  rw [if_neg (by simp [e1, e2, htr]), hid]
  dsimp only
  rw [hfind]
  dsimp only
  simp only [e1, e2, htr, Bool.false_and, Bool.false_eq_true, if_false, if_true]
  exact ⟨_, _, rfl, rfl, rfl⟩

/-- Witness for C6: adding a seating preference to an existing booking keeps
its 7 PM start time and party of four. -/
theorem c6_witness :
    ∃ appt st2,
      modify_appointment ⟨some "user_1", none, []⟩
        ⟨[], [⟨"appt_1", "user_1", "2030-01-01T19:00:00", "TBD", "booked", 4,
          "Guests: 4. "⟩]⟩ ⟨2025, 1, 1, 0, 0, 0⟩ "appt_1" none none
        (some "window seat") = .ok (.success appt, st2)
      ∧ appt.start_time = "2030-01-01T19:00:00"
      ∧ appt.num_people = 4 :=
  c6_modify_details_preserves ⟨some "user_1", none, []⟩
    ⟨[], [⟨"appt_1", "user_1", "2030-01-01T19:00:00", "TBD", "booked", 4,
      "Guests: 4. "⟩]⟩ ⟨2025, 1, 1, 0, 0, 0⟩ "user_1" "appt_1" "window seat"
    ⟨"appt_1", "user_1", "2030-01-01T19:00:00", "TBD", "booked", 4, "Guests: 4. "⟩
    rfl (by decide) (by decide)

/-- Totality of the lexicographic `datetime` order: when `a ≤ b` fails,
`b < a` holds. -/
lemma dtLt_total (a b : DT) (h : dtLe a b = false) : dtLt b a = true := by
  obtain ⟨a1, a2, a3, a4, a5, a6⟩ := a
  obtain ⟨b1, b2, b3, b4, b5, b6⟩ := b
  rw [dtLe, Bool.or_eq_false_iff] at h
  obtain ⟨h1, h2⟩ := h
  rw [beq_eq_false_iff_ne] at h2
  simp only [ne_eq, DT.mk.injEq, not_and] at h2
  unfold dtLt at h1 ⊢
  split_ifs at h1 ⊢ <;> simp_all <;> omega

/-- Specification of the next-slot scan loop: it returns `none` exactly when
every candidate of the 7-day window is at or before the reference time or
fails the availability check, and a returned slot is the rendering of a
candidate strictly after the reference time whose rendered string passes the
availability check. -/
lemma nextSlotScan_spec (st : DB) (now ref : DT) :
    ((nextSlotScan st now ref = none) ↔
      ∀ c ∈ slotCandidates ref, dtLe c ref = true
        ∨ check_availability st now (formatDT c) 1 = false)
    ∧ (∀ s, nextSlotScan st now ref = some s →
      ∃ c ∈ slotCandidates ref, s = formatDT c ∧ dtLt ref c = true
        ∧ check_availability st now s 1 = true) := by
  constructor
  · unfold nextSlotScan
    rw [Option.map_eq_none', List.find?_eq_none]
    constructor
    · intro h c hc
      have hthis := h c hc
      by_cases hle : dtLe c ref = true
      · exact Or.inl hle
      · right
        have hne : dtLe c ref = false := by simpa using hle
        by_contra hch
        have hch' : check_availability st now (formatDT c) 1 = true := by
          simpa using hch
        exact hthis (by rw [hne, hch']; rfl)
    · intro h c hc hcontra
      rw [Bool.and_eq_true] at hcontra
      rcases h c hc with hle | hch
      · rw [hle] at hcontra
        exact absurd hcontra.1 (by simp)
      · rw [hch] at hcontra
        exact absurd hcontra.2 (by simp)
  · intro s h
    unfold nextSlotScan at h
    rw [Option.map_eq_some'] at h
    obtain ⟨c, hfind, hfmt⟩ := h
    have hc : c ∈ slotCandidates ref := List.mem_of_find?_eq_some hfind
    have hp : (!(dtLe c ref) && check_availability st now (formatDT c) 1) = true := by
      have h0 := List.find?_some hfind
      simpa using h0
    rw [Bool.and_eq_true] at hp
    refine ⟨c, hc, hfmt.symm, ?_, ?_⟩
    · exact dtLt_total c ref (by simpa using hp.1)
    · rw [← hfmt]
      exact hp.2

/-- C3 (amended): for every `from_time` that is unparsable or parses to a
naive (offset-free) datetime, `get_next_available_slot` raises nothing and
scans candidate hours 10, 14, 17, 18, 19 over 7 calendar days from the
reference date (reference time `now` when unparsable, else
`max(parsed, now)`): it returns `none` exactly when no candidate after the
reference time passes the availability check, and any returned slot renders
a candidate strictly after the reference time whose string satisfies
`check_availability` against the same state.  (For offset-aware `from_time`
the source instead raises `TypeError`; see the counterexample.) -/
theorem c3_next_slot (st : DB) (now : DT) (ft : String)
    (h : ∀ dt o, parseISO (replaceZ ft) ≠ some (dt, some o)) :
    ∃ ref r, get_next_available_slot st now ft = .ok r
      ∧ (parseISO (replaceZ ft) = none → ref = now)
      ∧ (∀ dt, parseISO (replaceZ ft) = some (dt, none) → ref = pymax dt now)
      ∧ (r = none ↔ ∀ c ∈ slotCandidates ref,
          dtLe c ref = true ∨ check_availability st now (formatDT c) 1 = false)
      ∧ (∀ s, r = some s → ∃ c ∈ slotCandidates ref, s = formatDT c
          ∧ dtLt ref c = true ∧ check_availability st now s 1 = true) := by
  cases hp : parseISO (replaceZ ft) with
  | none =>
      refine ⟨now, nextSlotScan st now now, ?_, fun _ => rfl, ?_,
        (nextSlotScan_spec st now now).1, (nextSlotScan_spec st now now).2⟩
      · unfold get_next_available_slot
        rw [hp]
      · intro dt hdt
        exact absurd hdt (by simp)
  | some p =>
      obtain ⟨dt, off⟩ := p
      cases off with
      | some o => exact absurd hp (h dt o)
      | none =>
          refine ⟨pymax dt now, nextSlotScan st now (pymax dt now), ?_, ?_, ?_,
            (nextSlotScan_spec st now (pymax dt now)).1,
            (nextSlotScan_spec st now (pymax dt now)).2⟩
          · unfold get_next_available_slot
            rw [hp]
          · intro h0
            exact absurd h0 (by simp)
          · intro dt2 hdt2
            simp only [Option.some.injEq, Prod.mk.injEq] at hdt2
            rw [hdt2.1]

/-- Witness for C3: from a parseable naive time on an empty ledger the scan
returns a slot, and the theorem's conclusions hold at that input. -/
theorem c3_witness :
    ∃ ref r,
      get_next_available_slot ⟨[], []⟩ ⟨2026, 5, 1, 9, 0, 0⟩ "2026-05-01T12:00:00"
        = .ok r
      ∧ (parseISO (replaceZ "2026-05-01T12:00:00") = none → ref = ⟨2026, 5, 1, 9, 0, 0⟩)
      ∧ (∀ dt, parseISO (replaceZ "2026-05-01T12:00:00") = some (dt, none) →
          ref = pymax dt ⟨2026, 5, 1, 9, 0, 0⟩)
      ∧ (r = none ↔ ∀ c ∈ slotCandidates ref,
          dtLe c ref = true
            ∨ check_availability ⟨[], []⟩ ⟨2026, 5, 1, 9, 0, 0⟩ (formatDT c) 1 = false)
      ∧ (∀ s, r = some s → ∃ c ∈ slotCandidates ref, s = formatDT c
          ∧ dtLt ref c = true
          ∧ check_availability ⟨[], []⟩ ⟨2026, 5, 1, 9, 0, 0⟩ s 1 = true) :=
  c3_next_slot ⟨[], []⟩ ⟨2026, 5, 1, 9, 0, 0⟩ "2026-05-01T12:00:00" (by
    intro dt o hc
    have hn : parseISO (replaceZ "2026-05-01T12:00:00")
        = some (⟨2026, 5, 1, 12, 0, 0⟩, none) := by decide
    rw [hn] at hc
    simp at hc)

/-- Counterexample for C3 as stated: the claim promises a slot-or-`None`
result for every `from_time`, but an offset-aware `from_time` reaches
`max(dt, now)` comparing an aware datetime with the naive `now`, and the
uncaught `TypeError` aborts the call (modelled as `Except.error`). -/
theorem c3_counterexample :
    get_next_available_slot ⟨[], []⟩ ⟨2025, 1, 1, 12, 0, 0⟩
      "2030-01-01T10:00:00+05:30" = .error () := rfl

/-- C5 (amended): failure paths of `modify_appointment` for an identified
guest.  (1) When something truthy is requested and the id is not among the
guest's active appointments, the call fails with `NotFound` and the state is
unchanged.  (2) When a (truthy) new start time is supplied, availability
fails for the effective time and party size, and the new time does not parse
to an offset-aware datetime, the call returns a structured rejection
classified `pastDate` or `slotUnavailable` carrying the suggested next slot
computed by `get_next_available_slot` (present whenever one exists), and the
state is completely unchanged — no cancel, no create.  (For an offset-aware
new start time the rejection path instead raises `TypeError` out of the
next-slot scan; see the counterexample.) -/
theorem c5_modify_failure_paths (ts : ToolState) (st : DB) (now : DT)
    (uid aid : String) (nst : Option String) (nnp : Option Nat) (nd : Option String)
    (hid : ts.user_id = some uid) :
    ((optTruthy nst || natTruthy nnp || optTruthy nd) = true →
      (get_user_appointments st uid).find? (fun a => a.id == aid) = none →
      modify_appointment ts st now aid nst nnp nd = .ok (.notFound, st))
    ∧ (∀ t original, nst = some t → t ≠ "" →
      (get_user_appointments st uid).find? (fun a => a.id == aid) = some original →
      check_availability st now t
          (if natTruthy nnp then nnp.getD 0 else original.num_people) = false →
      (∀ dt o, parseISO (replaceZ t) ≠ some (dt, some o)) →
      ∃ ns, get_next_available_slot st now t = .ok ns
        ∧ (modify_appointment ts st now aid nst nnp nd = .ok (.pastDate ns, st)
           ∨ modify_appointment ts st now aid nst nnp nd
              = .ok (.slotUnavailable ns, st))) := by
  constructor
  · intro hsome hnone
    have hguard : (!optTruthy nst && !natTruthy nnp && !optTruthy nd) = false := by
      cases h1 : optTruthy nst <;> cases h2 : natTruthy nnp <;>
        cases h3 : optTruthy nd <;> simp_all
    unfold modify_appointment
    rw [if_neg (by rw [hguard]; simp), hid]
    dsimp only
    rw [hnone]
  · intro t original hnst ht hfind hunavail hnaive
    subst hnst
    have htr : optTruthy (some t) = true := optTruthy_some_ne t ht
    have hnx : ∃ ns, get_next_available_slot st now t = .ok ns := by
      cases hp : parseISO (replaceZ t) with
      | none => exact ⟨_, by unfold get_next_available_slot; rw [hp]⟩
      | some p =>
          obtain ⟨dt, off⟩ := p
          cases off with
          | some o => exact absurd hp (hnaive dt o)
          | none => exact ⟨_, by unfold get_next_available_slot; rw [hp]⟩
    obtain ⟨ns, hnx⟩ := hnx
    refine ⟨ns, hnx, ?_⟩
    unfold modify_appointment
    rw [if_neg (by simp [htr]), hid]
    dsimp only
    rw [hfind]
    dsimp only
    have hgt : ((some t : Option String).getD "") = t := rfl
    simp only [htr, if_true, hgt]
    rw [if_pos (by rw [hunavail]; rfl), hnx]
    dsimp only
    by_cases hip : (match parseISO (replaceZ t) with
        | some (dt, off) => decide (tsOf dt off < epochSecs now)
        | none => false) = true
    · rw [if_pos hip]
      exact Or.inl rfl
    · rw [if_neg hip]
      exact Or.inr rfl

/-- Witness for C5: modifying an unknown id fails with `NotFound` leaving the
state intact, and modifying a booking onto an already-booked 7 PM slot is
rejected as `slotUnavailable` with the scan's suggested slot. -/
theorem c5_witness :
    modify_appointment ⟨some "user_1", none, []⟩ ⟨[], []⟩ ⟨2030, 5, 1, 12, 0, 0⟩
        "ghost" (some "2030-06-01T19:00:00") none none
      = .ok (.notFound, ⟨[], []⟩)
    ∧ (∃ ns,
        get_next_available_slot
          ⟨[], [⟨"appt_1", "user_1", "2030-06-01T19:00:00", "TBD", "booked", 2,
            "Guests: 2. "⟩,
            ⟨"appt_2", "user_1", "2030-06-02T18:00:00", "TBD", "booked", 2,
              "Guests: 2. "⟩]⟩ ⟨2030, 5, 1, 12, 0, 0⟩ "2030-06-01T19:00:00" = .ok ns
        ∧ (modify_appointment ⟨some "user_1", none, []⟩
            ⟨[], [⟨"appt_1", "user_1", "2030-06-01T19:00:00", "TBD", "booked", 2,
              "Guests: 2. "⟩,
              ⟨"appt_2", "user_1", "2030-06-02T18:00:00", "TBD", "booked", 2,
                "Guests: 2. "⟩]⟩ ⟨2030, 5, 1, 12, 0, 0⟩ "appt_2"
            (some "2030-06-01T19:00:00") none none
            = .ok (.pastDate ns,
              ⟨[], [⟨"appt_1", "user_1", "2030-06-01T19:00:00", "TBD", "booked", 2,
                "Guests: 2. "⟩,
                ⟨"appt_2", "user_1", "2030-06-02T18:00:00", "TBD", "booked", 2,
                  "Guests: 2. "⟩]⟩)
           ∨ modify_appointment ⟨some "user_1", none, []⟩
            ⟨[], [⟨"appt_1", "user_1", "2030-06-01T19:00:00", "TBD", "booked", 2,
              "Guests: 2. "⟩,
              ⟨"appt_2", "user_1", "2030-06-02T18:00:00", "TBD", "booked", 2,
                "Guests: 2. "⟩]⟩ ⟨2030, 5, 1, 12, 0, 0⟩ "appt_2"
            (some "2030-06-01T19:00:00") none none
            = .ok (.slotUnavailable ns,
              ⟨[], [⟨"appt_1", "user_1", "2030-06-01T19:00:00", "TBD", "booked", 2,
                "Guests: 2. "⟩,
                ⟨"appt_2", "user_1", "2030-06-02T18:00:00", "TBD", "booked", 2,
                  "Guests: 2. "⟩]⟩))) := by
  constructor
  · exact (c5_modify_failure_paths ⟨some "user_1", none, []⟩ ⟨[], []⟩
      ⟨2030, 5, 1, 12, 0, 0⟩ "user_1" "ghost" (some "2030-06-01T19:00:00") none none
      rfl).1 (by decide) (by decide)
  · exact (c5_modify_failure_paths ⟨some "user_1", none, []⟩
      ⟨[], [⟨"appt_1", "user_1", "2030-06-01T19:00:00", "TBD", "booked", 2,
        "Guests: 2. "⟩,
        ⟨"appt_2", "user_1", "2030-06-02T18:00:00", "TBD", "booked", 2,
          "Guests: 2. "⟩]⟩ ⟨2030, 5, 1, 12, 0, 0⟩ "user_1" "appt_2"
      (some "2030-06-01T19:00:00") none none rfl).2 "2030-06-01T19:00:00"
      ⟨"appt_2", "user_1", "2030-06-02T18:00:00", "TBD", "booked", 2, "Guests: 2. "⟩
      rfl (by decide) (by decide) (by decide)
      (by
        intro dt o hc
        have hn : parseISO (replaceZ "2030-06-01T19:00:00")
            = some (⟨2030, 6, 1, 19, 0, 0⟩, none) := by decide
        rw [hn] at hc
        simp at hc)

/-- Counterexample for C5 as stated: the claim promises a structured
rejection whenever the supplied new time is unavailable, but an offset-aware
new start time (here 5 AM +05:30, rejected by validation) sends the
rejection path into `get_next_available_slot`, whose `max(dt, now)` raises an
uncaught `TypeError` — the call aborts instead of returning a rejection. -/
theorem c5_counterexample :
    modify_appointment ⟨some "user_1", none, []⟩
      ⟨[], [⟨"appt_1", "user_1", "2030-06-01T19:00:00", "TBD", "booked", 2,
        "Guests: 2. "⟩]⟩ ⟨2030, 5, 1, 12, 0, 0⟩ "appt_1"
      (some "2030-01-01T05:00:00+05:30") none none = .error () := rfl

/-- C9 (amended): the booking scenario at "2023-10-27T19:00:00" (with the
clock at noon that day).  The first request, with implicit identification
from "Ana" / "555-123-4567", succeeds and books the slot; an identical
second request fails classified as a slot conflict (not past-date), and the
suggested next slot is `2023-10-28T10:00:00`: the scan's candidate hours are
10, 14, 17, 18, 19, so the same-day times 20:00 and 21:00 claimed by the
specification are never candidates, and no same-day candidate lies after
19:00. -/
theorem c9_double_booking_scenario :
    book_appointment ⟨none, none, []⟩ ⟨[], []⟩ ⟨2023, 10, 27, 12, 0, 0⟩
        "2023-10-27T19:00:00" 2 (some "Ana") (some "555-123-4567")
        "General Reservation"
      = .ok (.success
          ⟨"appt_1", "user_1", "2023-10-27T19:00:00", "TBD", "booked", 2,
            "Guests: 2. General Reservation"⟩,
          ⟨some "user_1", some ⟨"user_1", "5551234567", "Ana"⟩,
            [⟨"appt_1", "user_1", "2023-10-27T19:00:00", "TBD", "booked", 2,
              "Guests: 2. General Reservation"⟩]⟩,
          ⟨[⟨"user_1", "5551234567", "Ana"⟩],
            [⟨"appt_1", "user_1", "2023-10-27T19:00:00", "TBD", "booked", 2,
              "Guests: 2. General Reservation"⟩]⟩)
    ∧ book_appointment
        ⟨some "user_1", some ⟨"user_1", "5551234567", "Ana"⟩,
          [⟨"appt_1", "user_1", "2023-10-27T19:00:00", "TBD", "booked", 2,
            "Guests: 2. General Reservation"⟩]⟩
        ⟨[⟨"user_1", "5551234567", "Ana"⟩],
          [⟨"appt_1", "user_1", "2023-10-27T19:00:00", "TBD", "booked", 2,
            "Guests: 2. General Reservation"⟩]⟩
        ⟨2023, 10, 27, 12, 0, 0⟩ "2023-10-27T19:00:00" 2 none none
        "General Reservation"
      = .ok (.slotUnavailable (some "2023-10-28T10:00:00"),
          ⟨some "user_1", some ⟨"user_1", "5551234567", "Ana"⟩,
            [⟨"appt_1", "user_1", "2023-10-27T19:00:00", "TBD", "booked", 2,
              "Guests: 2. General Reservation"⟩]⟩,
          ⟨[⟨"user_1", "5551234567", "Ana"⟩],
            [⟨"appt_1", "user_1", "2023-10-27T19:00:00", "TBD", "booked", 2,
              "Guests: 2. General Reservation"⟩]⟩) :=
  ⟨rfl, rfl⟩

/-- Counterexample for C9 as stated: the claim requires the second booking
attempt to suggest a slot from 2023-10-27 20:00 or 21:00 (both within
business hours), but the code's second attempt suggests the next-day slot
`2023-10-28T10:00:00`: the candidate hours of the scan contain nothing after
19:00 on the same day. -/
theorem c9_counterexample :
    (book_appointment
        ⟨some "user_1", some ⟨"user_1", "5551234567", "Ana"⟩,
          [⟨"appt_1", "user_1", "2023-10-27T19:00:00", "TBD", "booked", 2,
            "Guests: 2. General Reservation"⟩]⟩
        ⟨[⟨"user_1", "5551234567", "Ana"⟩],
          [⟨"appt_1", "user_1", "2023-10-27T19:00:00", "TBD", "booked", 2,
            "Guests: 2. General Reservation"⟩]⟩
        ⟨2023, 10, 27, 12, 0, 0⟩ "2023-10-27T19:00:00" 2 none none
        "General Reservation"
      = .ok (.slotUnavailable (some "2023-10-28T10:00:00"),
          ⟨some "user_1", some ⟨"user_1", "5551234567", "Ana"⟩,
            [⟨"appt_1", "user_1", "2023-10-27T19:00:00", "TBD", "booked", 2,
              "Guests: 2. General Reservation"⟩]⟩,
          ⟨[⟨"user_1", "5551234567", "Ana"⟩],
            [⟨"appt_1", "user_1", "2023-10-27T19:00:00", "TBD", "booked", 2,
              "Guests: 2. General Reservation"⟩]⟩))
    ∧ some "2023-10-28T10:00:00" ≠ some "2023-10-27T20:00:00"
    ∧ some "2023-10-28T10:00:00" ≠ some "2023-10-27T21:00:00" :=
  ⟨rfl, by decide, by decide⟩
